import Mathlib

/-!
Shallow embedding of the AI_Interviewer backend core, translated from
`backend/config/settings.py`, `backend/models/evaluation_models.py`,
`backend/models/interview_state.py`, `backend/core/evaluator.py`,
`backend/core/question_bank.py` and `backend/core/interview_agent.py`.

Numeric scores (Python floats) are modelled as rationals.  The external
language-model oracle is modelled as explicit data passed in: a call that can
raise is an `Except Unit` value, a call that always returns is plain data.
Python `hash` and the float square root used by the consistency score are
abstracted as function parameters (`pyHash`, `sqrtFn`); no claim depends on
their values.
-/

namespace AIInterviewer

/-! ## Python string primitives

Core `String.trim`, `String.toLower` and `String.splitOn` do not reduce well
inside the kernel, so the Python string operations used by the source are
implemented structurally over the character list. -/

/-- Python `str.strip()`: remove leading and trailing whitespace. -/
def pyStrip (s : String) : String :=
  String.mk ((s.data.dropWhile Char.isWhitespace).reverse.dropWhile Char.isWhitespace).reverse

/-- Python `str.lower()`. -/
def pyLower (s : String) : String :=
  String.mk (s.data.map Char.toLower)

/-- Helper for `strContains`: does `needle` occur in the list at any position? -/
def subListAt (needle : List Char) : List Char → Bool
  | [] => needle.isEmpty
  | c :: rest => needle.isPrefixOf (c :: rest) || subListAt needle rest

/-- Python `needle in haystack` substring test. -/
def strContains (haystack needle : String) : Bool :=
  subListAt needle.data haystack.data

/-- Helper for `pySplitChar`, working on character lists. -/
def splitCharList (sep : Char) : List Char → List (List Char)
  | [] => [[]]
  | c :: rest =>
    let r := splitCharList sep rest
    if c = sep then [] :: r
    else
      match r with
      | [] => [[c]]
      | h :: t => (c :: h) :: t

/-- Python `s.split(sep)` for a single-character separator (the source only
splits on a question mark). -/
def pySplitChar (sep : Char) (s : String) : List String :=
  (splitCharList sep s.data).map String.mk

/-! ## Configuration constants (`backend/config/settings.py`) -/

def TECHNICAL_WEIGHT : ℚ := 0.40

def DEPTH_WEIGHT : ℚ := 0.25

def PROBLEM_SOLVING_WEIGHT : ℚ := 0.20

def COMMUNICATION_WEIGHT : ℚ := 0.15

def MAX_QUESTIONS : Nat := 15

/-! ## Enumerations (`evaluation_models.py`, `interview_state.py`) -/

inductive SkillLevel where
  | novice
  | basic
  | intermediate
  | advanced
  | expert
deriving DecidableEq, Repr

inductive QuestionDifficulty where
  | basic
  | intermediate
  | advanced
deriving DecidableEq, Repr

/-- String payload of the `QuestionDifficulty` enum (its `.value` in Python). -/
def QuestionDifficulty.value : QuestionDifficulty → String
  | .basic => "basic"
  | .intermediate => "intermediate"
  | .advanced => "advanced"

inductive InterviewPhase where
  | introduction
  | assessment
  | conclusion
  | completed
deriving DecidableEq, Repr

/-- Position of a phase in the forward order
introduction, assessment, conclusion, completed. -/
def InterviewPhase.rank : InterviewPhase → Nat
  | .introduction => 0
  | .assessment => 1
  | .conclusion => 2
  | .completed => 3

/-- Position of a skill level in the order novice < basic < intermediate <
advanced < expert. -/
def SkillLevel.rank : SkillLevel → Nat
  | .novice => 0
  | .basic => 1
  | .intermediate => 2
  | .advanced => 3
  | .expert => 4

/-- Position of a difficulty tier in the order basic < intermediate < advanced. -/
def QuestionDifficulty.rank : QuestionDifficulty → Nat
  | .basic => 0
  | .intermediate => 1
  | .advanced => 2

/-! ## Score data (`evaluation_models.py`) -/

structure ScoreBreakdown where
  technical_score : ℚ
  depth_score : ℚ
  problem_solving_score : ℚ
  communication_score : ℚ
  overall_score : ℚ
deriving DecidableEq, Repr

structure QuestionEvaluation where
  question_id : String
  answer : String
  scores : ScoreBreakdown
  feedback : String
  strengths : List String
  improvements : List String
  follow_up_suggestions : List String
deriving DecidableEq, Repr

structure InterviewEvaluation where
  overall_scores : ScoreBreakdown
  skill_level : SkillLevel
  category_performance : List (String × ℚ)
  question_evaluations : List QuestionEvaluation
  key_strengths : List String
  areas_for_improvement : List String
  recommendations : List String
  consistency_score : ℚ
  improvement_trend : String
  readiness_assessment : String
deriving DecidableEq, Repr

/-! ## Oracle result shapes (`utils/llm_client.py` contracts)

The scoring oracle returns a JSON dictionary; the evaluator reads each field
with `.get(key, default)`, so each field is modelled as an `Option` with the
default applied at the read site. -/

structure EvalData where
  technical_score : Option ℚ
  depth_score : Option ℚ
  problem_solving_score : Option ℚ
  communication_score : Option ℚ
  feedback : Option String
  strengths : Option (List String)
  improvements : Option (List String)
  follow_up_questions : Option (List String)
deriving Repr

structure SummaryResult where
  key_strengths : Option (List String)
  improvement_areas : Option (List String)
  development_recommendations : Option (List String)
deriving Repr

/-! ## Per-answer evaluation (`evaluator.py`, `evaluate_answer` and
`_create_fallback_evaluation`) -/

/-- Heuristic evaluation used when the scoring oracle fails
(`ExcelAnswerEvaluator._create_fallback_evaluation`, evaluator.py 80-108). -/
def create_fallback_evaluation (pyHash : String → Nat)
    (question answer _category : String) : QuestionEvaluation :=
  let answer_length : ℚ := ((pyStrip answer).length : ℚ)
  let technical_score : ℚ := min 70 (answer_length * 2)
  let scores : ScoreBreakdown :=
    { technical_score := technical_score
      depth_score := technical_score * 0.9
      problem_solving_score := technical_score * 0.8
      communication_score := technical_score * 0.85
      overall_score := technical_score * 0.88 }
  { question_id := "fallback_" ++ toString (pyHash question % 1000)
    answer := answer
    scores := scores
    feedback := "Evaluation completed with basic analysis due to system limitations."
    strengths := ["Provided a response"]
    improvements := ["Could provide more detailed explanation"]
    follow_up_suggestions := [] }

/-- Per-answer evaluation (`ExcelAnswerEvaluator.evaluate_answer`,
evaluator.py 17-78).  `oracleResult` is the outcome of the
`llm_client.evaluate_answer` call; an exception falls back to
`create_fallback_evaluation`. -/
def evaluate_answer (pyHash : String → Nat) (oracleResult : Except Unit EvalData)
    (question answer category difficulty : String) : QuestionEvaluation :=
  match oracleResult with
  | .error _ => create_fallback_evaluation pyHash question answer category
  | .ok evaluation_data =>
    let technical_score := evaluation_data.technical_score.getD 0
    let depth_score := evaluation_data.depth_score.getD 0
    let problem_solving_score := evaluation_data.problem_solving_score.getD 0
    let communication_score := evaluation_data.communication_score.getD 0
    let overall_score :=
      technical_score * TECHNICAL_WEIGHT +
      depth_score * DEPTH_WEIGHT +
      problem_solving_score * PROBLEM_SOLVING_WEIGHT +
      communication_score * COMMUNICATION_WEIGHT
    { question_id :=
        category ++ "_" ++ difficulty ++ "_" ++ toString (pyHash question % 1000)
      answer := answer
      scores :=
        { technical_score := technical_score
          depth_score := depth_score
          problem_solving_score := problem_solving_score
          communication_score := communication_score
          overall_score := overall_score }
      feedback := evaluation_data.feedback.getD "No detailed feedback available"
      strengths := evaluation_data.strengths.getD []
      improvements := evaluation_data.improvements.getD []
      follow_up_suggestions := evaluation_data.follow_up_questions.getD [] }

/-- Skill-level banding (`_determine_skill_level`, evaluator.py 218-230). -/
def determine_skill_level (overall_score : ℚ) : SkillLevel :=
  if 90 ≤ overall_score then .expert
  else if 75 ≤ overall_score then .advanced
  else if 60 ≤ overall_score then .intermediate
  else if 40 ≤ overall_score then .basic
  else .novice

/-! ## Interview-level aggregation (`evaluator.py`) -/

/-- Aggregate scores (`_calculate_aggregate_scores`, evaluator.py 185-216). -/
def calculate_aggregate_scores (evaluations : List QuestionEvaluation) : ScoreBreakdown :=
  if evaluations.isEmpty then ⟨0, 0, 0, 0, 0⟩
  else
    let count : ℚ := (evaluations.length : ℚ)
    let technical_avg := (evaluations.map (fun e => e.scores.technical_score)).sum / count
    let depth_avg := (evaluations.map (fun e => e.scores.depth_score)).sum / count
    let problem_solving_avg := (evaluations.map (fun e => e.scores.problem_solving_score)).sum / count
    let communication_avg := (evaluations.map (fun e => e.scores.communication_score)).sum / count
    let overall_avg :=
      technical_avg * TECHNICAL_WEIGHT +
      depth_avg * DEPTH_WEIGHT +
      problem_solving_avg * PROBLEM_SOLVING_WEIGHT +
      communication_avg * COMMUNICATION_WEIGHT
    { technical_score := technical_avg
      depth_score := depth_avg
      problem_solving_score := problem_solving_avg
      communication_score := communication_avg
      overall_score := overall_avg }

/-- One accumulation step of the `category_scores` / `category_counts`
dictionaries: add `score` under key `cat`, preserving insertion order. -/
def addToGroups (acc : List (String × ℚ × Nat)) (cat : String) (score : ℚ) :
    List (String × ℚ × Nat) :=
  match acc with
  | [] => [(cat, score, 1)]
  | (c, s, n) :: rest =>
    if c = cat then (c, s + score, n + 1) :: rest
    else (c, s, n) :: addToGroups rest cat score

/-- Mean per key of a list of (key, value) pairs, keys in insertion order;
models the dictionary accumulation pattern shared by
`_calculate_category_performance` and
`InterviewState.get_category_performance`. -/
def groupMeans (pairs : List (String × ℚ)) : List (String × ℚ) :=
  (pairs.foldl (fun acc p => addToGroups acc p.1 p.2) []).map
    (fun g => (g.1, g.2.1 / (g.2.2 : ℚ)))

/-- Category performance (`_calculate_category_performance`, evaluator.py
232-252).  The source sets `category = "Excel Skills"` for every evaluation
(line 240), so every score is accumulated under that single literal key. -/
def calculate_category_performance (evaluations : List QuestionEvaluation) :
    List (String × ℚ) :=
  groupMeans (evaluations.map (fun e => ("Excel Skills", e.scores.overall_score)))

/-- Consistency score (`_calculate_consistency_score`, evaluator.py 254-271).
The float square root is abstracted as `sqrtFn`. -/
def calculate_consistency_score (sqrtFn : ℚ → ℚ)
    (evaluations : List QuestionEvaluation) : ℚ :=
  if evaluations.length < 2 then 100
  else
    let scores := evaluations.map (fun e => e.scores.overall_score)
    let mean_score := scores.sum / (scores.length : ℚ)
    let variance := (scores.map (fun s => (s - mean_score) ^ 2)).sum / (scores.length : ℚ)
    let std_dev := sqrtFn variance
    max 0 (100 - std_dev * 4)

/-- Python floor division `a // b` on integers. -/
def pyFloorDiv (a b : ℤ) : ℤ := Int.fdiv a b

/-- Python list slice `l[i:]` for an integer index: a negative index counts
from the end of the list and is clamped at zero, like Python. -/
def pySliceFrom (l : List ℚ) (i : ℤ) : List ℚ :=
  if i < 0 then l.drop ((l.length : ℤ) + i).toNat else l.drop i.toNat

/-- Improvement trend (`_analyze_improvement_trend`, evaluator.py 273-295).
The source compares `scores[:len(scores)//3]` with `scores[-len(scores)//3:]`;
note that the second slice uses the floor division `-n // 3`, a negative
index of magnitude `⌈n/3⌉`. -/
def analyze_improvement_trend (evaluations : List QuestionEvaluation) : String :=
  if evaluations.length < 3 then "stable"
  else
    let scores := evaluations.map (fun e => e.scores.overall_score)
    let first_third := scores.take (scores.length / 3)
    let last_third := pySliceFrom scores (pyFloorDiv (-(scores.length : ℤ)) 3)
    let first_avg := first_third.sum / (first_third.length : ℚ)
    let last_avg := last_third.sum / (last_third.length : ℚ)
    let improvement := last_avg - first_avg
    if 5 < improvement then "improving"
    else if improvement < -5 then "declining"
    else "stable"

/-- Role readiness text (`_assess_role_readiness`, evaluator.py 297-309). -/
def assess_role_readiness (overall_score : ℚ) : String :=
  if 85 ≤ overall_score then "Ready for senior-level Excel roles with minimal training"
  else if 70 ≤ overall_score then "Ready for intermediate roles, some advanced training beneficial"
  else if 55 ≤ overall_score then "Ready for entry-level roles with structured training program"
  else if 40 ≤ overall_score then "Requires significant training before role placement"
  else "Not ready for Excel-dependent roles, comprehensive training needed"

/-- Fixed minimal evaluation (`_create_minimal_evaluation`, evaluator.py
311-333). -/
def create_minimal_evaluation : InterviewEvaluation :=
  { overall_scores :=
      { technical_score := 50
        depth_score := 50
        problem_solving_score := 50
        communication_score := 50
        overall_score := 50 }
    skill_level := .basic
    category_performance := [("Excel Skills", 50)]
    question_evaluations := []
    key_strengths := ["Participated in the interview"]
    areas_for_improvement := ["All areas need development"]
    recommendations := ["Complete Excel training program"]
    consistency_score := 50
    improvement_trend := "stable"
    readiness_assessment := "Requires training before role placement" }

/-- Real-time feedback text (`get_real_time_feedback`, evaluator.py 335-347). -/
def get_real_time_feedback (score : ℚ) (category : String) : String :=
  if 85 ≤ score then "Excellent answer! You demonstrate strong " ++ category ++ " skills."
  else if 70 ≤ score then "Good response. Your " ++ category ++ " knowledge is solid."
  else if 55 ≤ score then "Decent answer. Some areas in " ++ category ++ " could be strengthened."
  else if 40 ≤ score then "Basic understanding shown. " ++ category ++ " skills need development."
  else "This area needs work. Consider reviewing " ++ category ++ " concepts."

/-! ## Interview state (`models/interview_state.py`)

The `datetime` fields (`start_time`, `end_time`, timestamps) and the unused
cached score fields of the Python dataclass are not modelled; no modelled
logic reads them. -/

structure QuestionResponse where
  question_id : String
  question : String
  answer : String
  score : ℚ
  feedback : String
  category : String
  difficulty : QuestionDifficulty
deriving DecidableEq, Repr

structure ConvTurn where
  role : String
  message : String
deriving DecidableEq, Repr

structure InterviewState where
  session_id : String
  candidate_name : String
  candidate_email : Option String := none
  current_phase : InterviewPhase
  experience_level : Option String := none
  current_difficulty : QuestionDifficulty := .basic
  questions_asked : List QuestionResponse := []
  current_question_index : Nat := 0
  conversation_history : List ConvTurn := []
  is_completed : Bool := false
deriving DecidableEq, Repr

/-- `InterviewState.add_response` (interview_state.py 56-59). -/
def InterviewState.add_response (st : InterviewState) (response : QuestionResponse) :
    InterviewState :=
  { st with
    questions_asked := st.questions_asked ++ [response]
    current_question_index := st.current_question_index + 1 }

/-- `InterviewState.add_conversation` (interview_state.py 61-67). -/
def InterviewState.add_conversation (st : InterviewState) (role message : String) :
    InterviewState :=
  { st with conversation_history := st.conversation_history ++ [⟨role, message⟩] }

/-- `InterviewState.get_current_score` (interview_state.py 69-75). -/
def InterviewState.get_current_score (st : InterviewState) : ℚ :=
  if st.questions_asked.isEmpty then 0
  else (st.questions_asked.map (fun q => q.score)).sum / (st.questions_asked.length : ℚ)

/-- `InterviewState.get_category_performance` (interview_state.py 77-94):
mean score per recorded response category. -/
def InterviewState.get_category_performance (st : InterviewState) : List (String × ℚ) :=
  groupMeans (st.questions_asked.map (fun r => (r.category, r.score)))

/-- `InterviewState.should_increase_difficulty` (interview_state.py 96-111). -/
def InterviewState.should_increase_difficulty (st : InterviewState) : Bool :=
  if st.questions_asked.length < 3 then false
  else
    let recent_scores :=
      (st.questions_asked.drop (st.questions_asked.length - 3)).map (fun q => q.score)
    let avg_recent := recent_scores.sum / (recent_scores.length : ℚ)
    if st.current_difficulty = QuestionDifficulty.basic ∧ 75 ≤ avg_recent then true
    else if st.current_difficulty = QuestionDifficulty.intermediate ∧ 80 ≤ avg_recent then true
    else false

/-- `InterviewState.should_decrease_difficulty` (interview_state.py 113-128). -/
def InterviewState.should_decrease_difficulty (st : InterviewState) : Bool :=
  if st.questions_asked.length < 2 then false
  else
    let recent_scores :=
      (st.questions_asked.drop (st.questions_asked.length - 2)).map (fun q => q.score)
    let avg_recent := recent_scores.sum / (recent_scores.length : ℚ)
    if st.current_difficulty = QuestionDifficulty.advanced ∧ avg_recent < 60 then true
    else if st.current_difficulty = QuestionDifficulty.intermediate ∧ avg_recent < 50 then true
    else false

/-! ## Full interview evaluation (`evaluate_interview`, evaluator.py 110-183)

`ansOracle` gives the scoring-oracle outcome for each re-evaluated response and
`sumOracle` the summary-oracle outcome; a `.error` value models the call
raising.  Every exception raised inside the Python `try` block is caught at
line 181 and answered with the minimal evaluation; in this embedding the
summary oracle is the only raising call (`evaluate_answer` catches its own
oracle failures internally). -/

/-- Digest passed to the summary oracle (evaluator.py 142-154). -/
structure SummaryData where
  questions : Nat
  scores : ScoreBreakdown
  categories : List (String × ℚ)
  responses : List (String × ℚ × String)
deriving Repr

def evaluate_interview (pyHash : String → Nat) (sqrtFn : ℚ → ℚ)
    (ansOracle : QuestionResponse → Except Unit EvalData)
    (sumOracle : SummaryData → Except Unit SummaryResult)
    (interview_state : InterviewState) : InterviewEvaluation :=
  let question_evaluations := interview_state.questions_asked.map
    (fun r => evaluate_answer pyHash (ansOracle r) r.question r.answer r.category
      r.difficulty.value)
  if question_evaluations.isEmpty then create_minimal_evaluation
  else
    let overall_scores := calculate_aggregate_scores question_evaluations
    let skill_level := determine_skill_level overall_scores.overall_score
    let category_performance := calculate_category_performance question_evaluations
    let summary_data : SummaryData :=
      { questions := question_evaluations.length
        scores := overall_scores
        categories := category_performance
        responses := question_evaluations.map
          (fun e => (e.answer, e.scores.overall_score, "general")) }
    match sumOracle summary_data with
    | .error _ => create_minimal_evaluation
    | .ok summary =>
      { overall_scores := overall_scores
        skill_level := skill_level
        category_performance := category_performance
        question_evaluations := question_evaluations
        key_strengths := summary.key_strengths.getD ["Completed the interview"]
        areas_for_improvement :=
          summary.improvement_areas.getD ["Continue practicing Excel skills"]
        recommendations :=
          summary.development_recommendations.getD ["Regular Excel practice recommended"]
        consistency_score := calculate_consistency_score sqrtFn question_evaluations
        improvement_trend := analyze_improvement_trend question_evaluations
        readiness_assessment := assess_role_readiness overall_scores.overall_score }

/-! ## Question bank (`core/question_bank.py`)

`get_adaptive_question` first computes a deterministic target difficulty
(lines 250-264) and then randomly picks among unexplored categories;
the deterministic part is modelled here, the random selection outcome is
supplied by the environment in the agent model. -/

/-- Target-difficulty computation of `ExcelQuestionBank.get_adaptive_question`
(question_bank.py 250-264). -/
def adaptive_next_difficulty (current_performance : ℚ)
    (current_difficulty : QuestionDifficulty) : QuestionDifficulty :=
  if 80 ≤ current_performance ∧ current_difficulty ≠ QuestionDifficulty.advanced then
    if current_difficulty = QuestionDifficulty.basic then .intermediate
    else .advanced
  else if current_performance < 50 ∧ current_difficulty ≠ QuestionDifficulty.basic then
    if current_difficulty = QuestionDifficulty.advanced then .intermediate
    else .basic
  else current_difficulty

/-! ## Interview orchestrator (`core/interview_agent.py`)

`process_response` is modelled per session as a function from the current
`InterviewState` and an `AgentEnv` — the outcomes of the external calls the
handler may make during this one turn — to the reply and the updated state.
A reply of `.error ()` models an uncaught exception propagating to the
caller (the session object keeps the mutations made before the raise, as in
Python). -/

/-- A question record from the catalog (`question_bank.py`). -/
structure QuestionRec where
  id : String
  category : String
  question : String
  expected_points : List String
deriving DecidableEq, Repr

/-- Outcomes of the external (oracle / catalog / random) calls available to
one `process_response` turn. -/
structure AgentEnv where
  pyHash : String → Nat
  sqrtFn : ℚ → ℚ
  /-- Result of `_extract_experience_level` (total: it catches oracle
  failures and falls back to the string Intermediate). -/
  experience_text : String
  /-- Result of `question_bank.get_question` for the first question. -/
  first_question : Option QuestionRec
  /-- Result of the transition-message generation call. -/
  transition_msg : Except Unit String
  /-- Scoring-oracle outcome for the answer evaluated this turn. -/
  answer_oracle : Except Unit EvalData
  /-- Result of `question_bank.get_adaptive_question` (selection randomness
  included). -/
  next_question : Option QuestionRec
  /-- Result of the next-question presentation call. -/
  question_msg : Except Unit String
  /-- Result of `_generate_conclusion_message`. -/
  conclusion_msg : Except Unit String
  /-- Scoring-oracle outcomes for the re-evaluation inside
  `evaluate_interview`. -/
  answers_oracle : QuestionResponse → Except Unit EvalData
  /-- Summary-oracle outcome inside `evaluate_interview`. -/
  summary_oracle : SummaryData → Except Unit SummaryResult
  /-- Result of `_generate_interview_summary`. -/
  final_summary_msg : Except Unit String

/-- Question context reconstructed from the conversation
(`_get_current_question_from_conversation`, interview_agent.py 261-280):
the latest assistant turn containing a question mark, truncated at its
first question mark. -/
def get_current_question_from_conversation (st : InterviewState) :
    Option QuestionRec :=
  match st.conversation_history.reverse.find?
      (fun entry => entry.role == "assistant" && strContains entry.message "?") with
  | none => none
  | some entry =>
    let question_text := (pySplitChar '?' entry.message).headD "" ++ "?"
    some
      { id := "q_" ++ toString st.questions_asked.length
        question := question_text
        category := "General Excel"
        expected_points := [] }

/-- Difficulty adaptation applied after an evaluated answer
(interview_agent.py 182-192): escalation is checked first and at most one
one-tier adjustment is applied. -/
def adjust_difficulty (st : InterviewState) : QuestionDifficulty :=
  if st.should_increase_difficulty then
    if st.current_difficulty = QuestionDifficulty.basic then .intermediate
    else if st.current_difficulty = QuestionDifficulty.intermediate then .advanced
    else st.current_difficulty
  else if st.should_decrease_difficulty then
    if st.current_difficulty = QuestionDifficulty.advanced then .intermediate
    else if st.current_difficulty = QuestionDifficulty.intermediate then .basic
    else st.current_difficulty
  else st.current_difficulty

/-- Next-question flow (`_generate_next_question_flow`, interview_agent.py
307-351): ask the adaptive selector; with no question left, move to the
conclusion; otherwise present the question.  The message-generation calls may
raise, which propagates (`.error`) to the caller of the flow. -/
def generate_next_question_flow (env : AgentEnv) (st : InterviewState) :
    Except Unit String × InterviewState :=
  match env.next_question with
  | none =>
    let st := { st with current_phase := InterviewPhase.conclusion }
    match env.conclusion_msg with
    | .error _ => (.error (), st)
    | .ok conclusion_message =>
      (.ok conclusion_message, st.add_conversation "assistant" conclusion_message)
  | some _next_question =>
    match env.question_msg with
    | .error _ => (.error (), st)
    | .ok question_message =>
      (.ok question_message, st.add_conversation "assistant" question_message)

/-- Introduction phase handler (`_handle_introduction_phase`,
interview_agent.py 95-132). -/
def handle_introduction_phase (env : AgentEnv) (st : InterviewState)
    (_response : String) : Except Unit String × InterviewState :=
  let experience_level := env.experience_text
  let st := { st with experience_level := some experience_level }
  let lowered := pyLower experience_level
  let st :=
    if strContains lowered "beginner" || strContains lowered "new" then
      { st with current_difficulty := QuestionDifficulty.basic }
    else if strContains lowered "advanced" || strContains lowered "expert" then
      { st with current_difficulty := QuestionDifficulty.intermediate }
    else
      { st with current_difficulty := QuestionDifficulty.basic }
  let st := { st with current_phase := InterviewPhase.assessment }
  match env.first_question with
  | none =>
    (.ok "I apologize, but there was an issue loading questions. Please try again.", st)
  | some _first_question =>
    match env.transition_msg with
    | .error _ => (.error (), st)
    | .ok transition_message =>
      (.ok transition_message, st.add_conversation "assistant" transition_message)

/-- Generic continuation message of the assessment-phase exception handler
(interview_agent.py 204). -/
def assessment_error_message : String :=
  "Thank you for your response. Let me ask you another question."

/-- Assessment phase handler (`_handle_assessment_phase`, interview_agent.py
134-204).  Without a reconstructable current question the turn skips straight
to the next-question flow (outside the `try` block); otherwise the answer is
evaluated and recorded, and any exception raised later in the `try` block is
caught and converted to `assessment_error_message`. -/
def handle_assessment_phase (env : AgentEnv) (st : InterviewState)
    (response : String) : Except Unit String × InterviewState :=
  match get_current_question_from_conversation st with
  | none => generate_next_question_flow env st
  | some current_question =>
    let evaluation := evaluate_answer env.pyHash env.answer_oracle
      current_question.question response current_question.category
      st.current_difficulty.value
    let question_response : QuestionResponse :=
      { question_id := current_question.id
        question := current_question.question
        answer := response
        score := evaluation.scores.overall_score
        feedback := evaluation.feedback
        category := current_question.category
        difficulty := st.current_difficulty }
    let st := st.add_response question_response
    let feedback_message :=
      get_real_time_feedback evaluation.scores.overall_score current_question.category
    if MAX_QUESTIONS ≤ st.questions_asked.length then
      let st := { st with current_phase := InterviewPhase.conclusion }
      match env.conclusion_msg with
      | .error _ => (.ok assessment_error_message, st)
      | .ok conclusion_message =>
        (.ok conclusion_message, st.add_conversation "assistant" conclusion_message)
    else
      let st := { st with current_difficulty := adjust_difficulty st }
      match generate_next_question_flow env st with
      | (.error _, st) => (.ok assessment_error_message, st)
      | (.ok next_response, st) =>
        (.ok (feedback_message ++ "\n\n" ++ next_response), st)

/-- Conclusion phase handler (`_handle_conclusion_phase`, interview_agent.py
206-238).  `evaluate_interview` itself never raises; a failure of the final
summary-message call is caught and the phase is left unchanged. -/
def handle_conclusion_phase (env : AgentEnv) (st : InterviewState)
    (_response : String) : Except Unit String × InterviewState :=
  let _interview_evaluation :=
    evaluate_interview env.pyHash env.sqrtFn env.answers_oracle env.summary_oracle st
  match env.final_summary_msg with
  | .error _ =>
    (.ok "Thank you for completing the interview. Your performance will be evaluated and a report will be generated.", st)
  | .ok summary_message =>
    let st :=
      { st with is_completed := true, current_phase := InterviewPhase.completed }
    (.ok summary_message, st)

/-- Orchestrator entry point (`process_response`, interview_agent.py 71-93):
record the user turn, then dispatch on the current phase. -/
def process_response (env : AgentEnv) (st : InterviewState)
    (user_response : String) : Except Unit String × InterviewState :=
  let st := st.add_conversation "user" user_response
  match st.current_phase with
  | .introduction => handle_introduction_phase env st user_response
  | .assessment => handle_assessment_phase env st user_response
  | .conclusion => handle_conclusion_phase env st user_response
  | .completed => (.ok "Interview completed. Thank you for your time!", st)

/-! ## Claimed invariant on score breakdowns -/

/-- Weighted-overall property claimed by the spec for every `ScoreBreakdown`:
the overall score is the fixed weighted combination of the four sub-scores. -/
def ScoreBreakdown.weighted_overall (s : ScoreBreakdown) : Prop :=
  s.overall_score =
    s.technical_score * TECHNICAL_WEIGHT + s.depth_score * DEPTH_WEIGHT +
    s.problem_solving_score * PROBLEM_SOLVING_WEIGHT +
    s.communication_score * COMMUNICATION_WEIGHT

/-- C1 (counterexample): the claim fails on the fallback heuristic evaluation.
For the one-character answer "a" the fallback sets technical = 2 and
overall = 2 · 0.88 = 1.76, while the weighted combination of its sub-scores is
2 · 0.9125 = 1.825. -/
theorem C1_counterexample :
    ¬ ((create_fallback_evaluation (fun _ => 0) "q" "a" "cat").scores).weighted_overall := by
  have h : (pyStrip "a").length = 1 := by decide
  simp only [ScoreBreakdown.weighted_overall, create_fallback_evaluation, h,
    TECHNICAL_WEIGHT, DEPTH_WEIGHT, PROBLEM_SOLVING_WEIGHT, COMMUNICATION_WEIGHT]
  norm_num

/-- C1 (amended): every `ScoreBreakdown` built on the oracle-success path of
`evaluate_answer`, by `calculate_aggregate_scores`, and by
`create_minimal_evaluation` satisfies the weighted-overall invariant; the
fallback heuristic instead sets overall = 0.88 · technical, which violates the
invariant whenever its technical score is nonzero. -/
theorem C1_overall_weighted_amended :
    (∀ (pyHash : String → Nat) (d : EvalData) (q a c diff : String),
      ((evaluate_answer pyHash (.ok d) q a c diff).scores).weighted_overall) ∧
    (∀ evals : List QuestionEvaluation,
      (calculate_aggregate_scores evals).weighted_overall) ∧
    (create_minimal_evaluation.overall_scores).weighted_overall ∧
    (∀ (pyHash : String → Nat) (q a c : String),
      (create_fallback_evaluation pyHash q a c).scores.overall_score =
        (create_fallback_evaluation pyHash q a c).scores.technical_score * 0.88) ∧
    (∀ (pyHash : String → Nat) (q a c : String),
      (create_fallback_evaluation pyHash q a c).scores.technical_score ≠ 0 →
      ¬ ((create_fallback_evaluation pyHash q a c).scores).weighted_overall) := by
  refine ⟨?_, ?_, ?_, ?_, ?_⟩
  · intro pyHash d q a c diff
    simp [ScoreBreakdown.weighted_overall, evaluate_answer]
  · intro evals
    by_cases h : evals.isEmpty <;>
      simp [ScoreBreakdown.weighted_overall, calculate_aggregate_scores, h,
        TECHNICAL_WEIGHT, DEPTH_WEIGHT, PROBLEM_SOLVING_WEIGHT, COMMUNICATION_WEIGHT]
  · simp [ScoreBreakdown.weighted_overall, create_minimal_evaluation,
      TECHNICAL_WEIGHT, DEPTH_WEIGHT, PROBLEM_SOLVING_WEIGHT, COMMUNICATION_WEIGHT]
    norm_num
  · intro pyHash q a c
    simp [create_fallback_evaluation]
  · intro pyHash q a c hne hinv
    simp only [ScoreBreakdown.weighted_overall, create_fallback_evaluation,
      TECHNICAL_WEIGHT, DEPTH_WEIGHT, PROBLEM_SOLVING_WEIGHT,
      COMMUNICATION_WEIGHT] at hinv hne
    set t : ℚ := min 70 (((pyStrip a).length : ℚ) * 2) with ht
    have : t * 0.88 = t * (0.9125 : ℚ) := by
      calc t * 0.88 = t * 0.40 + t * 0.9 * 0.25 + t * 0.8 * 0.20 + t * 0.85 * 0.15 := hinv
      _ = t * 0.9125 := by ring
    have : t = 0 := by nlinarith
    exact hne this

/-- C1 (witness for the amended theorem): the fallback breakdown for the
two-character answer "ab" has technical score 4 ≠ 0 and indeed violates the
weighted-overall invariant. -/
theorem C1_witness :
    ¬ ((create_fallback_evaluation (fun _ => 0) "q2" "ab" "cat").scores).weighted_overall :=
  C1_overall_weighted_amended.2.2.2.2 (fun _ => 0) "q2" "ab" "cat" (by
    have h : (pyStrip "ab").length = 2 := by decide
    simp only [create_fallback_evaluation, h]
    norm_num)

/-- C6: the target difficulty computed by `get_adaptive_question` steps up
exactly one tier when performance ≥ 80 below Advanced, steps down exactly one
tier when performance < 50 above Basic, is unchanged otherwise, and never
moves more than one tier per call. -/
theorem C6_adaptive_target_difficulty :
    (∀ (perf : ℚ) (d : QuestionDifficulty),
      (80 ≤ perf ∧ d ≠ QuestionDifficulty.advanced →
        (adaptive_next_difficulty perf d).rank = d.rank + 1) ∧
      (perf < 50 ∧ d ≠ QuestionDifficulty.basic →
        (adaptive_next_difficulty perf d).rank + 1 = d.rank) ∧
      (¬(80 ≤ perf ∧ d ≠ QuestionDifficulty.advanced) ∧
        ¬(perf < 50 ∧ d ≠ QuestionDifficulty.basic) →
        adaptive_next_difficulty perf d = d) ∧
      ((adaptive_next_difficulty perf d).rank ≤ d.rank + 1 ∧
        d.rank ≤ (adaptive_next_difficulty perf d).rank + 1)) ∧
    adaptive_next_difficulty 85 QuestionDifficulty.basic = .intermediate ∧
    adaptive_next_difficulty 30 QuestionDifficulty.advanced = .intermediate ∧
    adaptive_next_difficulty 65 QuestionDifficulty.intermediate = .intermediate := by
  refine ⟨?_, ?_, ?_, ?_⟩
  · intro perf d
    cases d <;>
      · simp only [adaptive_next_difficulty]
        split_ifs <;>
          simp_all [QuestionDifficulty.rank] <;> first | omega | linarith
  · simp [adaptive_next_difficulty]; norm_num
  · simp [adaptive_next_difficulty]; norm_num
  · simp [adaptive_next_difficulty]; norm_num

/-- C6 (witness): at performance 85 from Basic the target tier is exactly one
tier up. -/
theorem C6_witness :
    (adaptive_next_difficulty 85 QuestionDifficulty.basic).rank =
      (QuestionDifficulty.basic).rank + 1 :=
  (C6_adaptive_target_difficulty.1 85 QuestionDifficulty.basic).1
    ⟨by norm_num, by decide⟩

/-- C8: `determine_skill_level` is monotonically non-decreasing and realizes
exactly the half-open score bands, including the claimed boundary values. -/
theorem C8_skill_level_bands :
    (∀ x y : ℚ, x ≤ y →
      (determine_skill_level x).rank ≤ (determine_skill_level y).rank) ∧
    (∀ x : ℚ,
      (determine_skill_level x = .expert ↔ 90 ≤ x) ∧
      (determine_skill_level x = .advanced ↔ 75 ≤ x ∧ x < 90) ∧
      (determine_skill_level x = .intermediate ↔ 60 ≤ x ∧ x < 75) ∧
      (determine_skill_level x = .basic ↔ 40 ≤ x ∧ x < 60) ∧
      (determine_skill_level x = .novice ↔ x < 40)) ∧
    determine_skill_level 90 = .expert ∧
    determine_skill_level (8999/100) = .advanced ∧
    determine_skill_level 75 = .advanced ∧
    determine_skill_level (7499/100) = .intermediate ∧
    determine_skill_level 60 = .intermediate ∧
    determine_skill_level (5999/100) = .basic ∧
    determine_skill_level 40 = .basic ∧
    determine_skill_level (3999/100) = .novice := by
  refine ⟨?_, ?_, ?_, ?_, ?_, ?_, ?_, ?_, ?_, ?_⟩
  · intro x y hxy
    simp only [determine_skill_level]
    split_ifs <;> simp_all [SkillLevel.rank] <;> linarith
  · intro x
    simp only [determine_skill_level]
    split_ifs <;>
      refine ⟨?_, ?_, ?_, ?_, ?_⟩ <;>
        simp_all <;> first
          | linarith
          | (intro h; linarith)
  all_goals unfold determine_skill_level
  all_goals norm_num

/-- C8 (witness): monotonicity applied at the concrete pair 60 ≤ 75. -/
theorem C8_witness :
    (determine_skill_level 60).rank ≤ (determine_skill_level 75).rank :=
  C8_skill_level_bands.1 60 75 (by norm_num)

/-! ## Sample data used by witnesses and counterexamples -/

/-- A concrete question evaluation with all five scores equal to `x`. -/
def sample_evaluation (x : ℚ) : QuestionEvaluation :=
  { question_id := "q"
    answer := "a"
    scores := ⟨x, x, x, x, x⟩
    feedback := ""
    strengths := []
    improvements := []
    follow_up_suggestions := [] }

/-- A concrete successful scoring-oracle result with all sub-scores 80. -/
def sample_eval_data : EvalData :=
  { technical_score := some 80
    depth_score := some 80
    problem_solving_score := some 80
    communication_score := some 80
    feedback := some "good"
    strengths := some []
    improvements := some []
    follow_up_questions := some [] }

/-- A concrete successful summary-oracle result. -/
def sample_summary : SummaryResult :=
  { key_strengths := some ["s"]
    improvement_areas := some ["i"]
    development_recommendations := some ["r"] }

/-- A session that answered two questions recorded under two distinct
category labels. -/
def two_category_session : InterviewState :=
  { session_id := "s1"
    candidate_name := "Jane Doe"
    current_phase := .conclusion
    questions_asked :=
      [{ question_id := "q0", question := "Q0?", answer := "a0", score := 80,
         feedback := "", category := "Formulas & Functions", difficulty := .basic },
       { question_id := "q1", question := "Q1?", answer := "a1", score := 60,
         feedback := "", category := "Pivot Tables", difficulty := .basic }] }

/-! ## Claim C2: category performance -/

/-- Accumulating onto an existing group with the same key. -/
theorem addToGroups_cons_same (c : String) (s x : ℚ) (n : Nat)
    (rest : List (String × ℚ × Nat)) :
    addToGroups ((c, s, n) :: rest) c x = (c, s + x, n + 1) :: rest := by
  simp [addToGroups]

/-- Folding a constant-key pair list onto a single matching group. -/
theorem foldl_addToGroups_const_key (scores : List ℚ) (c : String) (s : ℚ) (n : Nat) :
    (scores.map (fun x => (c, x))).foldl (fun acc p => addToGroups acc p.1 p.2)
      [(c, s, n)] = [(c, s + scores.sum, n + scores.length)] := by
  induction scores generalizing s n with
  | nil => simp
  | cons a l ih =>
    simp only [List.map_cons, List.foldl_cons, addToGroups_cons_same, ih,
      List.sum_cons, List.length_cons]
    refine congrArg (fun p => [(c, p)]) ?_
    refine congrArg₂ Prod.mk (by ring) (by omega)

/-- C2 (counterexample): on a session whose two responses are recorded under
two distinct category labels, the category-performance map produced by
`evaluate_interview` (with a succeeding oracle) has the single key
"Excel Skills", not one entry per recorded category. -/
theorem C2_counterexample :
    ((evaluate_interview (fun _ => 0) (fun _ => 0) (fun _ => .ok sample_eval_data)
        (fun _ => .ok sample_summary) two_category_session).category_performance).map
      Prod.fst = ["Excel Skills"] ∧
    two_category_session.questions_asked.map (fun r => r.category) =
      ["Formulas & Functions", "Pivot Tables"] := by
  constructor
  · decide
  · decide

/-- C2 (amended): for every non-empty evaluation list, the category map
produced by interview-level aggregation is the single entry "Excel Skills"
whose value is the arithmetic mean of all overall scores, irrespective of the
categories recorded on the responses. -/
theorem C2_category_map_amended :
    ∀ evals : List QuestionEvaluation, evals ≠ [] →
      calculate_category_performance evals =
        [("Excel Skills",
          (evals.map (fun e => e.scores.overall_score)).sum / (evals.length : ℚ))] := by
  intro evals h
  match evals with
  | e :: rest =>
    simp only [calculate_category_performance, groupMeans]
    rw [show (e :: rest).map (fun e => ("Excel Skills", e.scores.overall_score)) =
        ((e :: rest).map (fun e => e.scores.overall_score)).map
          (fun x => ("Excel Skills", x)) by rw [List.map_map]; rfl]
    simp only [List.map_cons, List.foldl_cons]
    rw [show addToGroups [] "Excel Skills" e.scores.overall_score =
        [("Excel Skills", e.scores.overall_score, 1)] from rfl]
    rw [foldl_addToGroups_const_key]
    simp only [List.map_cons, List.sum_cons, List.length_cons, List.length_map,
      List.map_nil]
    push_cast
    rw [add_comm (1 : ℚ) (rest.length : ℚ)]

/-- C2 (witness for the amended theorem): the singleton evaluation list. -/
theorem C2_witness :
    calculate_category_performance [sample_evaluation 80] =
      [("Excel Skills",
        (([sample_evaluation 80].map (fun e => e.scores.overall_score)).sum /
          (([sample_evaluation 80] : List QuestionEvaluation).length : ℚ)))] :=
  C2_category_map_amended [sample_evaluation 80] (by simp)

/-! ## Claim C3: improvement trend -/

/-- Modelled from the claim wording: trend classification where the first
third and the last third each consist of exactly ⌊n/3⌋ scores. -/
def trend_floor_thirds (scores : List ℚ) : String :=
  if scores.length < 3 then "stable"
  else
    let first_third := scores.take (scores.length / 3)
    let last_third := scores.drop (scores.length - scores.length / 3)
    let first_avg := first_third.sum / (first_third.length : ℚ)
    let last_avg := last_third.sum / (last_third.length : ℚ)
    let improvement := last_avg - first_avg
    if 5 < improvement then "improving"
    else if improvement < -5 then "declining"
    else "stable"

/-- The trend computation as amended: the first third is the first ⌊n/3⌋
scores and the last third is the final ⌈n/3⌉ scores. -/
def trend_ceil_thirds (scores : List ℚ) : String :=
  if scores.length < 3 then "stable"
  else
    let first_third := scores.take (scores.length / 3)
    let last_third := scores.drop (scores.length - (scores.length + 2) / 3)
    let first_avg := first_third.sum / (first_third.length : ℚ)
    let last_avg := last_third.sum / (last_third.length : ℚ)
    let improvement := last_avg - first_avg
    if 5 < improvement then "improving"
    else if improvement < -5 then "declining"
    else "stable"

/-- Python floor division `-n // 3` is negative for positive `n`. -/
theorem fdiv_neg_of_pos (n : ℕ) (h : 1 ≤ n) : Int.fdiv (-(n : ℤ)) 3 < 0 := by
  rw [Int.fdiv_eq_ediv _ (by norm_num)]
  omega

/-- The slice `scores[-n//3:]` starts at index `n - ⌈n/3⌉`. -/
theorem python_last_third_start (n : ℕ) :
    ((n : ℤ) + Int.fdiv (-(n : ℤ)) 3).toNat = n - (n + 2) / 3 := by
  rw [Int.fdiv_eq_ediv _ (by norm_num)]
  omega

/-- Four evaluations whose scores distinguish a floor-sized last third from a
ceil-sized one. -/
def spike_evaluations : List QuestionEvaluation :=
  [sample_evaluation 50, sample_evaluation 0, sample_evaluation 0,
   sample_evaluation 100]

/-- C3 (counterexample): on the four scores [50, 0, 0, 100] the source
computes "stable" (its last third is the last ⌈4/3⌉ = 2 scores, average 50),
while the claimed floor-sized thirds give "improving" (last third [100]). -/
theorem C3_counterexample :
    analyze_improvement_trend spike_evaluations = "stable" ∧
    trend_floor_thirds (spike_evaluations.map (fun e => e.scores.overall_score)) =
      "improving" := by
  constructor
  · have hf : Int.fdiv (-(4 : ℤ)) 3 = -2 := by decide
    have ht : Int.toNat 2 = 2 := rfl
    have hd : List.drop 2 [(50 : ℚ), 0, 0, 100] = [0, 100] := rfl
    simp only [analyze_improvement_trend, spike_evaluations, sample_evaluation,
      List.map_cons, List.map_nil, List.length_cons, List.length_nil,
      pyFloorDiv, pySliceFrom]
    norm_num [hf, ht, hd]
  · have hd : List.drop 3 [(50 : ℚ), 0, 0, 100] = [100] := rfl
    simp only [trend_floor_thirds, spike_evaluations, sample_evaluation,
      List.map_cons, List.map_nil, List.length_cons, List.length_nil]
    norm_num [hd]

/-- C3 (amended): the source trend over any evaluation list equals the
classification with a floor-sized first third and a ceil-sized last third
(the ±5 thresholds and the under-3 "stable" case as claimed); the claimed
concrete examples hold. -/
theorem C3_trend_amended :
    (∀ evals : List QuestionEvaluation,
      analyze_improvement_trend evals =
        trend_ceil_thirds (evals.map (fun e => e.scores.overall_score))) ∧
    analyze_improvement_trend
      [sample_evaluation 60, sample_evaluation 70, sample_evaluation 80] =
      "improving" ∧
    analyze_improvement_trend
      [sample_evaluation 70, sample_evaluation 72, sample_evaluation 71] =
      "stable" := by
  refine ⟨?_, ?_, ?_⟩
  · intro evals
    simp only [analyze_improvement_trend, trend_ceil_thirds, List.length_map]
    by_cases h : evals.length < 3
    · simp [h]
    · have h3 : 1 ≤ evals.length := by omega
      simp only [h, if_false, pyFloorDiv, pySliceFrom, List.length_map]
      rw [if_pos (fdiv_neg_of_pos _ h3), python_last_third_start]
  · have hf : Int.fdiv (-(3 : ℤ)) 3 = -1 := by decide
    have ht : Int.toNat 2 = 2 := rfl
    have hd : List.drop 2 [(60 : ℚ), 70, 80] = [80] := rfl
    simp only [analyze_improvement_trend, sample_evaluation, List.map_cons,
      List.map_nil, List.length_cons, List.length_nil, pyFloorDiv, pySliceFrom]
    norm_num [hf, ht, hd]
  · have hf : Int.fdiv (-(3 : ℤ)) 3 = -1 := by decide
    have ht : Int.toNat 2 = 2 := rfl
    have hd : List.drop 2 [(70 : ℚ), 72, 71] = [71] := rfl
    simp only [analyze_improvement_trend, sample_evaluation, List.map_cons,
      List.map_nil, List.length_cons, List.length_nil, pyFloorDiv, pySliceFrom]
    norm_num [hf, ht, hd]

/-! ## Claim C7: aggregation fallback -/

/-- A session that recorded no responses. -/
def empty_session : InterviewState :=
  { session_id := "s0"
    candidate_name := "Empty"
    current_phase := .conclusion }

/-- C7: `evaluate_interview` returns the fixed minimal evaluation on a session
with zero recorded responses, and whenever the summary-oracle call fails (the
only raising call inside its `try` block); it never returns partially
aggregated output. -/
theorem C7_minimal_fallback :
    (∀ (pyHash : String → Nat) (sqrtFn : ℚ → ℚ)
        (ansOracle : QuestionResponse → Except Unit EvalData)
        (sumOracle : SummaryData → Except Unit SummaryResult)
        (st : InterviewState),
      st.questions_asked = [] →
      evaluate_interview pyHash sqrtFn ansOracle sumOracle st =
        create_minimal_evaluation) ∧
    (∀ (pyHash : String → Nat) (sqrtFn : ℚ → ℚ)
        (ansOracle : QuestionResponse → Except Unit EvalData)
        (st : InterviewState),
      evaluate_interview pyHash sqrtFn ansOracle (fun _ => .error ()) st =
        create_minimal_evaluation) := by
  constructor
  · intro pyHash sqrtFn ansOracle sumOracle st h
    simp [evaluate_interview, h]
  · intro pyHash sqrtFn ansOracle st
    by_cases h : st.questions_asked = []
    · simp [evaluate_interview, h]
    · simp [evaluate_interview, h]

/-- C7 (witness): the minimal evaluation on a concrete empty session. -/
theorem C7_witness :
    evaluate_interview (fun _ => 0) (fun _ => 0) (fun _ => .error ())
      (fun _ => .ok sample_summary) empty_session = create_minimal_evaluation :=
  C7_minimal_fallback.1 (fun _ => 0) (fun _ => 0) (fun _ => .error ())
    (fun _ => .ok sample_summary) empty_session rfl

/-! ## Claim C5: difficulty-adaptation signals -/

/-- Mean score of the last `k` recorded responses of a session. -/
def recent_average (st : InterviewState) (k : Nat) : ℚ :=
  let recent :=
    (st.questions_asked.drop (st.questions_asked.length - k)).map (fun q => q.score)
  recent.sum / (recent.length : ℚ)

/-- C5: the escalation signal holds exactly for ≥ 3 responses with last-3 mean
≥ 75 at Basic or ≥ 80 at Intermediate (never at Advanced); the de-escalation
signal exactly for ≥ 2 responses with last-2 mean < 60 at Advanced or < 50 at
Intermediate (never at Basic); below the history minimum both signals are
false; the orchestrator checks escalation first and applies at most one
adjustment of exactly one tier. -/
theorem C5_difficulty_adaptation :
    ∀ st : InterviewState,
      (st.should_increase_difficulty = true ↔
        3 ≤ st.questions_asked.length ∧
          ((st.current_difficulty = QuestionDifficulty.basic ∧
              75 ≤ recent_average st 3) ∨
           (st.current_difficulty = QuestionDifficulty.intermediate ∧
              80 ≤ recent_average st 3))) ∧
      (st.should_decrease_difficulty = true ↔
        2 ≤ st.questions_asked.length ∧
          ((st.current_difficulty = QuestionDifficulty.advanced ∧
              recent_average st 2 < 60) ∨
           (st.current_difficulty = QuestionDifficulty.intermediate ∧
              recent_average st 2 < 50))) ∧
      (st.questions_asked.length < 3 → st.should_increase_difficulty = false) ∧
      (st.questions_asked.length < 2 → st.should_decrease_difficulty = false) ∧
      (st.should_increase_difficulty = false →
        st.should_decrease_difficulty = false →
        adjust_difficulty st = st.current_difficulty) ∧
      (st.should_increase_difficulty = true →
        (adjust_difficulty st).rank = st.current_difficulty.rank + 1) ∧
      (st.should_increase_difficulty = false →
        st.should_decrease_difficulty = true →
        (adjust_difficulty st).rank + 1 = st.current_difficulty.rank) := by
  intro st
  have hinc : st.should_increase_difficulty = true ↔
      3 ≤ st.questions_asked.length ∧
        ((st.current_difficulty = QuestionDifficulty.basic ∧
            75 ≤ recent_average st 3) ∨
         (st.current_difficulty = QuestionDifficulty.intermediate ∧
            80 ≤ recent_average st 3)) := by
    simp only [InterviewState.should_increase_difficulty, recent_average]
    by_cases h3 : st.questions_asked.length < 3
    · simp only [if_pos h3]
      constructor
      · intro h; exact absurd h (by simp)
      · rintro ⟨h, _⟩; omega
    · simp only [if_neg h3]
      split_ifs with h1 h2 <;> simp_all
  have hdec : st.should_decrease_difficulty = true ↔
      2 ≤ st.questions_asked.length ∧
        ((st.current_difficulty = QuestionDifficulty.advanced ∧
            recent_average st 2 < 60) ∨
         (st.current_difficulty = QuestionDifficulty.intermediate ∧
            recent_average st 2 < 50)) := by
    simp only [InterviewState.should_decrease_difficulty, recent_average]
    by_cases h2 : st.questions_asked.length < 2
    · simp only [if_pos h2]
      constructor
      · intro h; exact absurd h (by simp)
      · rintro ⟨h, _⟩; omega
    · simp only [if_neg h2]
      split_ifs with ha hb <;> simp_all
  refine ⟨hinc, hdec, ?_, ?_, ?_, ?_, ?_⟩
  · intro h
    rcases hb : st.should_increase_difficulty with _ | _
    · rfl
    · exact absurd ((hinc.mp hb).1) (by omega)
  · intro h
    rcases hb : st.should_decrease_difficulty with _ | _
    · rfl
    · exact absurd ((hdec.mp hb).1) (by omega)
  · intro h1 h2
    simp [adjust_difficulty, h1, h2]
  · intro h1
    rcases (hinc.mp h1).2 with ⟨hd, _⟩ | ⟨hd, _⟩ <;>
      simp [adjust_difficulty, h1, hd, QuestionDifficulty.rank]
  · intro h1 h2
    rcases (hdec.mp h2).2 with ⟨hd, _⟩ | ⟨hd, _⟩ <;>
      simp [adjust_difficulty, h1, h2, hd, QuestionDifficulty.rank]

/-- A session at Basic difficulty whose last three scores average 80. -/
def basic_streak_session : InterviewState :=
  { session_id := "s2"
    candidate_name := "Streak"
    current_phase := .assessment
    current_difficulty := .basic
    questions_asked :=
      [{ question_id := "q0", question := "Q0?", answer := "a0", score := 80,
         feedback := "", category := "General Excel", difficulty := .basic },
       { question_id := "q1", question := "Q1?", answer := "a1", score := 80,
         feedback := "", category := "General Excel", difficulty := .basic },
       { question_id := "q2", question := "Q2?", answer := "a2", score := 80,
         feedback := "", category := "General Excel", difficulty := .basic }] }

/-- C5 (witness): on a concrete Basic-tier session with three scores of 80 the
escalation signal fires and the applied adjustment is exactly one tier up. -/
theorem C5_witness :
    (adjust_difficulty basic_streak_session).rank =
      basic_streak_session.current_difficulty.rank + 1 :=
  ((C5_difficulty_adaptation basic_streak_session).2.2.2.2.2.1) (by
    simp only [InterviewState.should_increase_difficulty, basic_streak_session]
    norm_num)

/-! ## Structural facts about the orchestrator -/

/-- Recording a conversation turn does not change the phase. -/
theorem add_conversation_phase (st : InterviewState) (role msg : String) :
    (st.add_conversation role msg).current_phase = st.current_phase := rfl

/-- Recording a conversation turn does not change the recorded responses. -/
theorem add_conversation_questions (st : InterviewState) (role msg : String) :
    (st.add_conversation role msg).questions_asked = st.questions_asked := rfl

/-- Recording a response does not change the phase. -/
theorem add_response_phase (st : InterviewState) (r : QuestionResponse) :
    (st.add_response r).current_phase = st.current_phase := rfl

/-- The next-question flow leaves the phase unchanged or moves it to
Conclusion. -/
theorem flow_phase (env : AgentEnv) (st : InterviewState) :
    (generate_next_question_flow env st).2.current_phase = st.current_phase ∨
    (generate_next_question_flow env st).2.current_phase = InterviewPhase.conclusion := by
  unfold generate_next_question_flow
  cases env.next_question with
  | none => cases env.conclusion_msg <;> simp [InterviewState.add_conversation]
  | some q => cases env.question_msg <;> simp [InterviewState.add_conversation]

/-- The next-question flow never records a response. -/
theorem flow_questions (env : AgentEnv) (st : InterviewState) :
    (generate_next_question_flow env st).2.questions_asked = st.questions_asked := by
  unfold generate_next_question_flow
  cases env.next_question with
  | none => cases env.conclusion_msg <;> rfl
  | some q => cases env.question_msg <;> rfl

/-- The introduction handler always leaves the session in the Assessment
phase. -/
theorem intro_handler_phase (env : AgentEnv) (st : InterviewState) (r : String) :
    (handle_introduction_phase env st r).2.current_phase =
      InterviewPhase.assessment := by
  unfold handle_introduction_phase
  cases hq : env.first_question with
  | none => simp
  | some q => cases env.transition_msg <;> simp [InterviewState.add_conversation]

/-- The next-question flow in pair form: the output state keeps the phase or
moves it to Conclusion. -/
theorem flow_phase_pair (env : AgentEnv) (S st3 : InterviewState)
    (res : Except Unit String)
    (heq : generate_next_question_flow env S = (res, st3)) :
    st3.current_phase = S.current_phase ∨
    st3.current_phase = InterviewPhase.conclusion := by
  have h := flow_phase env S
  rwa [heq] at h

/-- The assessment handler leaves the phase unchanged or moves it to
Conclusion. -/
theorem assessment_handler_phase (env : AgentEnv) (st : InterviewState) (r : String) :
    (handle_assessment_phase env st r).2.current_phase = st.current_phase ∨
    (handle_assessment_phase env st r).2.current_phase = InterviewPhase.conclusion := by
  unfold handle_assessment_phase
  cases hq : get_current_question_from_conversation st with
  | none => simpa using flow_phase env st
  | some cq =>
    simp only []
    split
    · cases env.conclusion_msg <;> simp [InterviewState.add_conversation]
    · split
      · rename_i st3 heq
        rcases flow_phase_pair env _ st3 _ heq with h | h
        · exact Or.inl h
        · exact Or.inr h
      · rename_i nr st3 heq
        rcases flow_phase_pair env _ st3 _ heq with h | h
        · exact Or.inl h
        · exact Or.inr h

/-- The conclusion handler leaves the phase unchanged or moves it to
Completed. -/
theorem conclusion_handler_phase (env : AgentEnv) (st : InterviewState) (r : String) :
    (handle_conclusion_phase env st r).2.current_phase = st.current_phase ∨
    (handle_conclusion_phase env st r).2.current_phase = InterviewPhase.completed := by
  unfold handle_conclusion_phase
  cases env.final_summary_msg <;> simp

/-- `process_response` dispatches on the phase after recording the user turn. -/
theorem process_response_dispatch (env : AgentEnv) (st : InterviewState) (r : String) :
    process_response env st r =
      match st.current_phase with
      | .introduction => handle_introduction_phase env (st.add_conversation "user" r) r
      | .assessment => handle_assessment_phase env (st.add_conversation "user" r) r
      | .conclusion => handle_conclusion_phase env (st.add_conversation "user" r) r
      | .completed =>
        (.ok "Interview completed. Thank you for your time!",
          st.add_conversation "user" r) := rfl

/-! ## Claim C9: forward-only phases -/

/-- C9: a `process_response` call never moves the phase backwards in the order
Introduction → Assessment → Conclusion → Completed, and hence neither does any
sequence of such calls. -/
theorem C9_phase_forward :
    (∀ (env : AgentEnv) (st : InterviewState) (r : String),
      st.current_phase.rank ≤ (process_response env st r).2.current_phase.rank) ∧
    (∀ (steps : List (AgentEnv × String)) (st : InterviewState),
      st.current_phase.rank ≤
        (steps.foldl (fun s p => (process_response p.1 s p.2).2) st).current_phase.rank) := by
  have single : ∀ (env : AgentEnv) (st : InterviewState) (r : String),
      st.current_phase.rank ≤ (process_response env st r).2.current_phase.rank := by
    intro env st r
    rw [process_response_dispatch]
    cases hp : st.current_phase with
    | introduction =>
      rw [intro_handler_phase]
      simp [InterviewPhase.rank]
    | assessment =>
      rcases assessment_handler_phase env (st.add_conversation "user" r) r with h | h <;>
        rw [h] <;> simp [InterviewPhase.rank, add_conversation_phase, hp]
    | conclusion =>
      rcases conclusion_handler_phase env (st.add_conversation "user" r) r with h | h <;>
        rw [h] <;> simp [InterviewPhase.rank, add_conversation_phase, hp]
    | completed =>
      simp [InterviewPhase.rank, add_conversation_phase, hp]
  refine ⟨single, ?_⟩
  intro steps
  induction steps with
  | nil => intro st; exact le_refl _
  | cons p rest ih =>
    intro st
    calc st.current_phase.rank
        ≤ (process_response p.1 st p.2).2.current_phase.rank := single p.1 st p.2
      _ ≤ _ := ih (process_response p.1 st p.2).2

/-! ## Claim C10: unevaluated turns -/

/-- C10: in the Assessment phase, when no assistant turn of the conversation
contains a question mark, `process_response` records no response (the
utterance is not scored) and goes straight to the next-question flow. -/
theorem C10_unscored_turn (env : AgentEnv) (st : InterviewState) (r : String)
    (hphase : st.current_phase = InterviewPhase.assessment)
    (hnoq : ∀ t ∈ st.conversation_history, t.role = "assistant" →
      strContains t.message "?" = false) :
    (process_response env st r).2.questions_asked = st.questions_asked ∧
    process_response env st r =
      generate_next_question_flow env (st.add_conversation "user" r) := by
  have hnone :
      get_current_question_from_conversation (st.add_conversation "user" r) = none := by
    unfold get_current_question_from_conversation
    have hfind : ((st.add_conversation "user" r).conversation_history.reverse.find?
        (fun entry => entry.role == "assistant" && strContains entry.message "?")) =
          none := by
      rw [List.find?_eq_none]
      intro t ht
      rw [List.mem_reverse] at ht
      simp only [InterviewState.add_conversation, List.mem_append,
        List.mem_singleton] at ht
      rcases ht with ht | ht
      · by_cases hrole : t.role = "assistant"
        · simp [hrole, hnoq t ht hrole]
        · simp [Bool.and_eq_true, beq_iff_eq, hrole]
      · subst ht
        simp
    rw [hfind]
  have hpr : process_response env st r =
      handle_assessment_phase env (st.add_conversation "user" r) r := by
    rw [process_response_dispatch, hphase]
  have hha : handle_assessment_phase env (st.add_conversation "user" r) r =
      generate_next_question_flow env (st.add_conversation "user" r) := by
    unfold handle_assessment_phase
    rw [hnone]
  refine ⟨?_, by rw [hpr, hha]⟩
  rw [hpr, hha, flow_questions, add_conversation_questions]

/-- A session in the Assessment phase whose only assistant turn contains no
question mark. -/
def quiet_assessment_session : InterviewState :=
  { session_id := "s3"
    candidate_name := "Quiet"
    current_phase := .assessment
    conversation_history := [⟨"assistant", "Welcome to the interview."⟩] }

/-- A concrete environment for one orchestrator turn. -/
def sample_env : AgentEnv :=
  { pyHash := fun _ => 0
    sqrtFn := fun _ => 0
    experience_text := "expert user"
    first_question := none
    transition_msg := .ok "Let us begin."
    answer_oracle := .error ()
    next_question :=
      some ⟨"basic_001", "Formulas & Functions", "How would you calculate a sum?", []⟩
    question_msg := .ok "Here is your next question about formulas?"
    conclusion_msg := .ok "Thank you."
    answers_oracle := fun _ => .error ()
    summary_oracle := fun _ => .ok sample_summary
    final_summary_msg := .ok "Summary." }

/-- C10 (witness): a concrete assessment turn with no pending question records
nothing and goes straight to the next-question flow. -/
theorem C10_witness :
    (process_response sample_env quiet_assessment_session "my answer").2.questions_asked =
      quiet_assessment_session.questions_asked ∧
    process_response sample_env quiet_assessment_session "my answer" =
      generate_next_question_flow sample_env
        (quiet_assessment_session.add_conversation "user" "my answer") :=
  C10_unscored_turn sample_env quiet_assessment_session "my answer" rfl (by decide)

/-! ## Claim C4: introduction-phase question failure -/

/-- A freshly started session in the Introduction phase. -/
def intro_session : InterviewState :=
  { session_id := "s4"
    candidate_name := "Intro"
    current_phase := .introduction }

/-- C4 (counterexample): `sample_env` has no first question available; the
call returns the user-visible error message, but the phase has already been
advanced to Assessment — it is not left at Introduction as claimed. -/
theorem C4_counterexample :
    (process_response sample_env intro_session "hi").2.current_phase =
      InterviewPhase.assessment ∧
    (process_response sample_env intro_session "hi").1 =
      .ok "I apologize, but there was an issue loading questions. Please try again." := by
  constructor
  · decide
  · rfl

/-- C4 (amended): in the Introduction phase, when the catalog returns no first
question, `process_response` returns the user-visible error message, but the
session phase has already been advanced to Assessment (the handler sets the
phase before fetching the question). -/
theorem C4_intro_failure_advances_phase (env : AgentEnv) (st : InterviewState)
    (r : String)
    (hphase : st.current_phase = InterviewPhase.introduction)
    (hq : env.first_question = none) :
    (process_response env st r).1 =
      .ok "I apologize, but there was an issue loading questions. Please try again." ∧
    (process_response env st r).2.current_phase = InterviewPhase.assessment := by
  rw [process_response_dispatch, hphase]
  constructor
  · simp only [handle_introduction_phase, hq]
  · exact intro_handler_phase env (st.add_conversation "user" r) r

/-- C4 (witness for the amended theorem): the concrete failing-catalog turn. -/
theorem C4_witness :
    (process_response sample_env intro_session "hi").1 =
      .ok "I apologize, but there was an issue loading questions. Please try again." ∧
    (process_response sample_env intro_session "hi").2.current_phase =
      InterviewPhase.assessment :=
  C4_intro_failure_advances_phase sample_env intro_session "hi" rfl rfl

end AIInterviewer
